import Mathlib

/-!
Verification development for the Gig.ly decision engine (src/Gigly.py).

Shallow embedding choices:
* Monetary amounts, miles, minutes and the acceptance-rate arithmetic of
  `ARState` are modelled over `ℚ` (the Python code uses machine floats; the
  spec describes the arithmetic mathematically).
* Geographic geometry (haversine distance, bearings, corridor test) is
  modelled over `ℝ`, since it uses transcendental functions.
* Python counters are `int`s that start at 0 and only ever get incremented,
  so they are modelled as `ℕ`.
* The `while True` loop of `declines_left_before_target` is modelled as a
  well-founded recursion; for `target ≤ 0` the Python loop never reaches its
  exit condition (it diverges), so the model returns 0 there and every
  theorem touching that region carries a `0 < target` hypothesis.
-/

namespace Gigly

/-! ### Configuration constants (env defaults from src/Gigly.py lines 7-16) -/

def AR_TARGET : ℚ := 72 / 100

def AR_WARN_PCT : ℚ := 74 / 100

def AR_WARN_DECLINES_LEFT : ℕ := 2

noncomputable def CONE_DEG : ℝ := 25

noncomputable def LATERAL_OFFSET_MI : ℝ := 8

/-- Operating mode, `MODE` env var: SHADOW or LIVE. -/
inductive Mode where
  | SHADOW : Mode
  | LIVE : Mode
deriving DecidableEq, Repr

/-- Pay floor in dollars per minute (0.40 $/min, i.e. $24/hr). -/
def MIN_PER_MIN : ℚ := 40 / 100

/-- Pay floor in dollars per mile. -/
def MIN_PER_MI : ℚ := 2

/-! ### Models (src/Gigly.py lines 19-31) -/

/-- Incoming delivery offer (class `Offer`). Economic fields over `ℚ`,
drop coordinates over `ℝ` in degrees. -/
structure Offer where
  id : String
  pay : ℚ
  miles : ℚ
  etaMin : ℚ
  drop_lat : ℝ
  drop_lng : ℝ

/-- Process-wide journey corridor (the `JOURNEY` dict): each endpoint is a
(lat, lng) pair or unset (`None`). -/
structure Journey where
  last_drop : Option (ℝ × ℝ)
  waypoint : Option (ℝ × ℝ)

/-! ### Acceptance-rate tracker state (class `ARState`, lines 34-67) -/

structure ARState where
  accepted : ℕ
  declined : ℕ
  target : ℚ
  warn_pct : ℚ
  warn_left : ℕ

/-- The fresh tracker created at process start: both counters 0, default
configuration. -/
def ARState.init : ARState :=
  { accepted := 0, declined := 0, target := AR_TARGET,
    warn_pct := AR_WARN_PCT, warn_left := AR_WARN_DECLINES_LEFT }

def ARState.total (s : ARState) : ℕ := s.accepted + s.declined

/-- Current rate `current`: accepted/total, or 1.0 when no offers have been seen yet. -/
def ARState.current (s : ARState) : ℚ :=
  if s.total = 0 then 1 else (s.accepted : ℚ) / (s.total : ℚ)

/-- Exit test of the `declines_left_before_target` loop (line 53):
`a / tot_next < t` where `tot_next = a + d + left + 1`. -/
def declinePred (a d : ℕ) (t : ℚ) (left : ℕ) : Prop :=
  (a : ℚ) / ((a : ℚ) + (d : ℚ) + (left : ℚ) + 1) < t

instance declinePred.decidable (a d : ℕ) (t : ℚ) (left : ℕ) :
    Decidable (declinePred a d t left) :=
  inferInstanceAs (Decidable (_ < _))

/-- A state of the loop that keeps running is bounded by `⌈a/t⌉` (for
positive `t`): this is the termination measure. -/
theorem not_declinePred_lt_ceil (a d : ℕ) (t : ℚ) (h : 0 < t) (left : ℕ)
    (hnot : ¬ declinePred a d t left) : left < (⌈(a : ℚ) / t⌉).toNat := by
  have hden : (0 : ℚ) < (a : ℚ) + (d : ℚ) + (left : ℚ) + 1 := by positivity
  have hge : t ≤ (a : ℚ) / ((a : ℚ) + (d : ℚ) + (left : ℚ) + 1) := not_lt.mp hnot
  have hmul : t * ((a : ℚ) + (d : ℚ) + (left : ℚ) + 1) ≤ (a : ℚ) :=
    (le_div_iff₀ hden).mp hge
  have hle1 : ((left : ℚ) + 1) ≤ (a : ℚ) + (d : ℚ) + (left : ℚ) + 1 := by
    have ha : (0 : ℚ) ≤ (a : ℚ) := Nat.cast_nonneg a
    have hd2 : (0 : ℚ) ≤ (d : ℚ) := Nat.cast_nonneg d
    linarith
  have hmul2 : t * ((left : ℚ) + 1) ≤ (a : ℚ) :=
    le_trans (mul_le_mul_of_nonneg_left hle1 h.le) hmul
  have hdiv : ((left : ℚ) + 1) ≤ (a : ℚ) / t :=
    (le_div_iff₀ h).mpr (by linarith)
  have hltq : ((left : ℕ) : ℚ) < (a : ℚ) / t := by linarith
  have hceil : ((left : ℕ) : ℤ) < ⌈(a : ℚ) / t⌉ :=
    Int.lt_ceil.mpr (by exact_mod_cast hltq)
  exact Int.lt_toNat.mpr hceil

/-- For a positive target the loop's exit test eventually holds (at latest at
`⌈a/t⌉`), so the Python `while True` loop exits. -/
theorem declinePred_exists (a d : ℕ) (t : ℚ) (ht : 0 < t) :
    ∃ L, declinePred a d t L := by
  by_contra hall
  push_neg at hall
  exact absurd (not_declinePred_lt_ceil a d t ht _ (hall (⌈(a : ℚ) / t⌉).toNat))
    (lt_irrefl _)

/-- Body of `declines_left_before_target` (lines 49-55): starting from
`left = 0` the loop increments `left` until the exit test
`a / (a + d + left + 1) < t` first holds and returns that `left`, i.e. the
least `left` satisfying `declinePred`.  When `t ≤ 0` the test never holds and
the Python loop diverges; the model returns 0 there (that region is excluded
by the `0 < target` hypotheses of the theorems below). -/
def declinesLeft (a d : ℕ) (t : ℚ) : ℕ :=
  if h : 0 < t then Nat.find (declinePred_exists a d t h) else 0

/-- Method `declines_left_before_target` (lines 47-55): how many more declines the
tracker can absorb before the next decline drops the running ratio below
`target`. -/
def ARState.declines_left_before_target (s : ARState) : ℕ :=
  declinesLeft s.accepted s.declined s.target

/-- The loop's exit condition holds at the value it returns. -/
theorem declinesLeft_pred (a d : ℕ) (t : ℚ) (ht : 0 < t) :
    declinePred a d t (declinesLeft a d t) := by
  rw [declinesLeft, dif_pos ht]
  exact Nat.find_spec (declinePred_exists a d t ht)

/-- Minimality: every index the loop passed over fails the exit test. -/
theorem declinesLeft_min (a d : ℕ) (t : ℚ) (ht : 0 < t) :
    ∀ k, k < declinesLeft a d t → ¬ declinePred a d t k := by
  intro k hk
  rw [declinesLeft, dif_pos ht] at hk
  exact Nat.find_min (declinePred_exists a d t ht) hk

/-- When the target is not positive the model returns 0 (the Python loop
diverges there). -/
theorem declinesLeft_eq_zero_of_nonpos (a d : ℕ) (t : ℚ) (ht : t ≤ 0) :
    declinesLeft a d t = 0 := by
  rw [declinesLeft, dif_neg (not_lt.mpr ht)]

/-- Uniqueness: the loop returns exactly the least index satisfying the exit
test. -/
theorem declinesLeft_eq_of (a d : ℕ) (t : ℚ) (ht : 0 < t) (L : ℕ)
    (hL : declinePred a d t L) (hmin : ∀ k, k < L → ¬ declinePred a d t k) :
    declinesLeft a d t = L := by
  rcases lt_trichotomy (declinesLeft a d t) L with h | h | h
  · exact absurd (declinesLeft_pred a d t ht) (hmin _ h)
  · exact h
  · exact absurd hL (declinesLeft_min a d t ht L h)

/-- The exit test is monotone in the declined counter: once a decline budget
is exhausted at `d`, it stays exhausted at any `d2 ≥ d`. -/
theorem declinePred_mono_declined (a d d2 : ℕ) (t : ℚ) (k : ℕ) (hdd : d ≤ d2)
    (hp : declinePred a d t k) : declinePred a d2 t k := by
  unfold declinePred at hp ⊢
  have hden : (0 : ℚ) < (a : ℚ) + (d : ℚ) + (k : ℚ) + 1 := by positivity
  have hden2 : (0 : ℚ) < (a : ℚ) + (d2 : ℚ) + (k : ℚ) + 1 := by positivity
  have hle : (a : ℚ) / ((a : ℚ) + (d2 : ℚ) + (k : ℚ) + 1) ≤
      (a : ℚ) / ((a : ℚ) + (d : ℚ) + (k : ℚ) + 1) := by
    apply div_le_div_of_nonneg_left (Nat.cast_nonneg a) hden
    have : ((d : ℚ)) ≤ (d2 : ℚ) := by exact_mod_cast hdd
    linarith
  exact lt_of_le_of_lt hle hp

/-! ### Health pill (lines 57-67) -/

/-- Python `int()` on a rational value: truncation toward zero. -/
def pyInt (x : ℚ) : ℤ := if 0 ≤ x then ⌊x⌋ else ⌈x⌉

/-- Method `_projected_after_n_offers` (lines 64-67): rate projected forward
assuming `accept_rate` over the next `n` offers. -/
def ARState.projected_after_n_offers (s : ARState) (n : ℕ) (accept_rate : ℚ) : ℚ :=
  let a : ℚ := (s.accepted : ℚ) + (pyInt ((n : ℚ) * accept_rate) : ℚ)
  let t : ℚ := (s.total : ℚ) + (n : ℚ)
  if t = 0 then 1 else a / t

/-- Coarse three-level health indicator. -/
inductive Pill where
  | GREEN : Pill
  | YELLOW : Pill
  | RED : Pill
deriving DecidableEq, Repr

/-- Method `pill` (lines 57-62): GREEN if the 10-offer projection at assumed rate
0.7 reaches `warn_pct` and at least 3 declines of headroom remain; else
YELLOW if the projection reaches `target` or at least 1 decline remains;
else RED. -/
def ARState.pill (s : ARState) : Pill :=
  let proj10 := s.projected_after_n_offers 10 (7 / 10)
  let left := s.declines_left_before_target
  if proj10 ≥ s.warn_pct ∧ left ≥ 3 then Pill.GREEN
  else if proj10 ≥ s.target ∨ left ≥ 1 then Pill.YELLOW
  else Pill.RED

/-! ### Geometry helpers (lines 76-106), over `ℝ` -/

noncomputable def EARTH_MI : ℝ := 3958.8

noncomputable def deg2rad (d : ℝ) : ℝ := d * Real.pi / 180

/-- Function `haversine_mi` (lines 79-83): great-circle distance in miles between two
(lat, lng) pairs in degrees. -/
noncomputable def haversine_mi (a b : ℝ × ℝ) : ℝ :=
  let lat1 := deg2rad a.1
  let lon1 := deg2rad a.2
  let lat2 := deg2rad b.1
  let lon2 := deg2rad b.2
  let dlat := lat2 - lat1
  let dlon := lon2 - lon1
  let h := Real.sin (dlat / 2) ^ 2 +
    Real.cos lat1 * Real.cos lat2 * Real.sin (dlon / 2) ^ 2
  2 * EARTH_MI * Real.arcsin (Real.sqrt h)

open Classical in
/-- Two-argument arctangent (`math.atan2`), principal value in `(-π, π]`. -/
noncomputable def atan2 (y x : ℝ) : ℝ :=
  if 0 < x then Real.arctan (y / x)
  else if x < 0 then
    (if 0 ≤ y then Real.arctan (y / x) + Real.pi
     else Real.arctan (y / x) - Real.pi)
  else if 0 < y then Real.pi / 2
  else if y < 0 then -(Real.pi / 2)
  else 0

noncomputable def degrees (r : ℝ) : ℝ := r * 180 / Real.pi

/-- Python float `%` with a positive modulus: `x - m * ⌊x / m⌋`. -/
noncomputable def floatMod (x m : ℝ) : ℝ := x - m * (⌊x / m⌋ : ℤ)

/-- Function `_bearing_deg` (lines 85-89): initial compass bearing in degrees
`[0, 360)` from `a` to `b`. -/
noncomputable def bearing_deg (a b : ℝ × ℝ) : ℝ :=
  let lat1 := deg2rad a.1
  let lon1 := deg2rad a.2
  let lat2 := deg2rad b.1
  let lon2 := deg2rad b.2
  let y := Real.sin (lon2 - lon1) * Real.cos lat2
  let x := Real.cos lat1 * Real.sin lat2 -
    Real.sin lat1 * Real.cos lat2 * Real.cos (lon2 - lon1)
  floatMod (degrees (atan2 y x) + 360) 360

open Classical in
/-- Function `_angle_diff_deg` (lines 91-93): smallest absolute angular difference
between two bearings, in `[0, 180]`. -/
noncomputable def angle_diff_deg (a b : ℝ) : ℝ :=
  let diff := floatMod |a - b| 360
  if diff ≤ 180 then diff else 360 - diff

/-- Function `advances_corridor` (lines 95-106) as a proposition.  The Python early
returns translate as: pass when no journey is set; fail when the angular
difference exceeds the cone; otherwise pass iff the lateral deviation is at
most the allowed offset. -/
def advances_corridor (last_drop waypoint : Option (ℝ × ℝ))
    (candidate_drop : ℝ × ℝ) (cone_deg lateral_offset_mi : ℝ) : Prop :=
  match last_drop, waypoint with
  | some ld, some wp =>
      let route_bearing := bearing_deg ld wp
      let cand_bearing := bearing_deg ld candidate_drop
      angle_diff_deg route_bearing cand_bearing ≤ cone_deg ∧
        haversine_mi ld candidate_drop *
          Real.sin (deg2rad (angle_diff_deg route_bearing cand_bearing)) ≤
          lateral_offset_mi
  | _, _ => True

/-! ### Decision engine `consider_offer` (lines 137-183) -/

/-- Decision actions. -/
inductive Action where
  | ACCEPT : Action
  | DECLINE : Action
  | ACCEPT_REROUTE : Action
deriving DecidableEq, Repr

/-- Round half to even at `10^k` decimal digits, the idealisation of Python's
`round(x, k)` on exact decimal data (no claim depends on these echoed
fields). -/
def roundHalfEven (x : ℚ) : ℤ :=
  if x - (⌊x⌋ : ℚ) < 1 / 2 then ⌊x⌋
  else if (1 : ℚ) / 2 < x - (⌊x⌋ : ℚ) then ⌊x⌋ + 1
  else if 2 ∣ ⌊x⌋ then ⌊x⌋ else ⌊x⌋ + 1

def pyRound2 (x : ℚ) : ℚ := (roundHalfEven (x * 100) : ℚ) / 100

def pyRound4 (x : ℚ) : ℚ := (roundHalfEven (x * 10000) : ℚ) / 10000

/-- Pay per hour (line 140): `(pay / max(etaMin, 0.01)) * 60`. -/
def payPerHr (o : Offer) : ℚ := o.pay / max o.etaMin (1 / 100) * 60

/-- Pay per mile (line 141): `pay / max(miles, 0.01)`. -/
def payPerMile (o : Offer) : ℚ := o.pay / max o.miles (1 / 100)

/-- Floors check (line 150): `pph >= 24.0 and ppm >= MIN_PER_MI`. -/
def floorsOk (o : Offer) : Prop := payPerHr o ≥ 24 ∧ payPerMile o ≥ MIN_PER_MI

instance floorsOk.decidable (o : Offer) : Decidable (floorsOk o) :=
  inferInstanceAs (Decidable (_ ∧ _))

/-- Corridor check of `consider_offer` (lines 144-147). -/
def corridorOk (j : Journey) (o : Offer) : Prop :=
  advances_corridor j.last_drop j.waypoint (o.drop_lat, o.drop_lng)
    CONE_DEG LATERAL_OFFSET_MI

/-- AR guard (line 153): `declines_left_before_target() <= 0`. -/
def arWouldBreak (s : ARState) : Prop := s.declines_left_before_target ≤ 0

instance arWouldBreak.decidable (s : ARState) : Decidable (arWouldBreak s) :=
  inferInstanceAs (Decidable (_ ≤ _))

/-- Response of `consider_offer` (lines 172-183). -/
structure Response where
  offer_id : String
  action : Action
  reason : String
  pay_per_hr : ℚ
  pay_per_mile : ℚ
  corridor_ok : Prop
  ar_pill : Pill
  ar_current : ℚ
  ar_declines_left : ℕ
  mode : Mode

open Classical in
/-- Endpoint `consider_offer` (lines 137-183).  Returns the response together with the
tracker state after the call (the Python code mutates the global `AR` in
LIVE mode before building the response). -/
noncomputable def consider_offer (o : Offer) (j : Journey) (s : ARState)
    (mode : Mode) : Response × ARState :=
  let dec : Action × String × Bool :=
    if arWouldBreak s ∧ (¬ floorsOk o ∨ ¬ corridorOk j o) then
      (Action.ACCEPT_REROUTE, "Protect AR >= 72%", true)
    else if corridorOk j o ∧ floorsOk o then
      (Action.ACCEPT, "All checks passed", true)
    else
      (Action.DECLINE,
        if ¬ corridorOk j o then "Corridor fail" else "Pay floor fail",
        false)
  let s2 : ARState :=
    if mode = Mode.LIVE then
      (if dec.2.2 then { s with accepted := s.accepted + 1 }
       else { s with declined := s.declined + 1 })
    else s
  ({ offer_id := o.id
     action := dec.1
     reason := dec.2.1
     pay_per_hr := pyRound2 (payPerHr o)
     pay_per_mile := pyRound2 (payPerMile o)
     corridor_ok := corridorOk j o
     ar_pill := s2.pill
     ar_current := pyRound4 s2.current
     ar_declines_left := s2.declines_left_before_target
     mode := mode }, s2)

/-! ### Concrete inputs used by the witnesses -/

/-- Journey with no corridor configured. -/
def journeyUnset : Journey := { last_drop := none, waypoint := none }

/-- Offer with zero pay: fails the pay floors. -/
noncomputable def offerNoPay : Offer :=
  { id := "o-nopay", pay := 0, miles := 1, etaMin := 1,
    drop_lat := 0, drop_lng := 0 }

/-- Offer from the spec scenario: pay 30, etaMin 60, miles 10, so
payPerHr = 30 and payPerMile = 3, passing both floors. -/
noncomputable def offerGood : Offer :=
  { id := "o-good", pay := 30, miles := 10, etaMin := 60,
    drop_lat := 0, drop_lng := 0 }

/-- Tracker with 10 accepts, 0 declines at the default target: three declines
of headroom remain. -/
def arStateHealthy : ARState := { ARState.init with accepted := 10 }

/-! ### Decision-engine lemmas -/

/-- Override branch of `consider_offer` (lines 155-158 and 167-170): when the
AR guard fires and a check fails, the action is ACCEPT_REROUTE, the outcome
counts as accepted, and the tracker gains an accept exactly in LIVE mode. -/
theorem consider_offer_override (o : Offer) (j : Journey) (s : ARState)
    (mode : Mode) (h1 : arWouldBreak s)
    (h2 : ¬ floorsOk o ∨ ¬ corridorOk j o) :
    (consider_offer o j s mode).1.action = Action.ACCEPT_REROUTE ∧
    (consider_offer o j s mode).1.reason = "Protect AR >= 72%" ∧
    (consider_offer o j s mode).2 =
      (if mode = Mode.LIVE then { s with accepted := s.accepted + 1 }
       else s) := by
  simp only [consider_offer]
  rw [if_pos ⟨h1, h2⟩]
  simp

/-- C1: whenever the decline budget is exhausted and at least one of the
floors or corridor checks fails, `consider_offer` returns ACCEPT_REROUTE
(never DECLINE), and in LIVE mode the accepted counter is incremented while
the declined counter is untouched. -/
theorem ar_override_forces_accept_reroute (o : Offer) (j : Journey)
    (s : ARState) (mode : Mode)
    (h1 : s.declines_left_before_target ≤ 0)
    (h2 : ¬ floorsOk o ∨ ¬ corridorOk j o) :
    (consider_offer o j s mode).1.action = Action.ACCEPT_REROUTE ∧
    (mode = Mode.LIVE →
      (consider_offer o j s mode).2.accepted = s.accepted + 1 ∧
      (consider_offer o j s mode).2.declined = s.declined) := by
  obtain ⟨hact, -, hstate⟩ := consider_offer_override o j s mode h1 h2
  refine ⟨hact, fun hm => ?_⟩
  rw [hstate, if_pos hm]
  exact ⟨rfl, rfl⟩

/-- The fresh tracker has no decline headroom at the default target. -/
theorem init_declines_left_eq_zero :
    ARState.init.declines_left_before_target = 0 := by
  apply declinesLeft_eq_of 0 0 AR_TARGET (by norm_num [AR_TARGET]) 0
  · norm_num [declinePred, AR_TARGET]
  · omega

theorem ar_override_forces_accept_reroute_witness :
    (consider_offer offerNoPay journeyUnset ARState.init Mode.LIVE).1.action =
      Action.ACCEPT_REROUTE ∧
    (Mode.LIVE = Mode.LIVE →
      (consider_offer offerNoPay journeyUnset ARState.init Mode.LIVE).2.accepted =
        ARState.init.accepted + 1 ∧
      (consider_offer offerNoPay journeyUnset ARState.init Mode.LIVE).2.declined =
        ARState.init.declined) :=
  ar_override_forces_accept_reroute offerNoPay journeyUnset ARState.init
    Mode.LIVE (le_of_eq init_declines_left_eq_zero)
    (Or.inl (by norm_num [floorsOk, payPerHr, payPerMile, offerNoPay, MIN_PER_MI]))

/-- C2: in SHADOW mode a `consider_offer` call leaves the tracker state (and
hence both counters, the total and the current ratio) exactly unchanged,
while a full decision response is still computed and returned. -/
theorem shadow_mode_preserves_counters (o : Offer) (j : Journey)
    (s : ARState) :
    (consider_offer o j s Mode.SHADOW).2 = s ∧
    (consider_offer o j s Mode.SHADOW).1.mode = Mode.SHADOW := by
  constructor <;> simp [consider_offer]

/-- C3: when the AR-protection override does not trigger, `consider_offer`
accepts with reason "All checks passed" exactly when both checks pass,
declines otherwise, and when both checks fail the reported reason is the
corridor failure. -/
theorem normal_path_accept_decline (o : Offer) (j : Journey) (s : ARState)
    (mode : Mode)
    (h : ¬ (arWouldBreak s ∧ (¬ floorsOk o ∨ ¬ corridorOk j o))) :
    ((floorsOk o ∧ corridorOk j o) →
      (consider_offer o j s mode).1.action = Action.ACCEPT ∧
      (consider_offer o j s mode).1.reason = "All checks passed") ∧
    (¬ (floorsOk o ∧ corridorOk j o) →
      (consider_offer o j s mode).1.action = Action.DECLINE) ∧
    ((¬ floorsOk o ∧ ¬ corridorOk j o) →
      (consider_offer o j s mode).1.reason = "Corridor fail") := by
  simp only [consider_offer]
  rw [if_neg h]
  refine ⟨fun hok => ?_, fun hno => ?_, fun hboth => ?_⟩
  · rw [if_pos ⟨hok.2, hok.1⟩]
    exact ⟨rfl, rfl⟩
  · rw [if_neg (fun hc => hno ⟨hc.2, hc.1⟩)]
  · rw [if_neg (fun hc => hboth.2 hc.1), if_pos hboth.2]

/-- The healthy witness tracker has exactly three declines of headroom. -/
theorem arStateHealthy_declines_left :
    arStateHealthy.declines_left_before_target = 3 := by
  apply declinesLeft_eq_of 10 0 AR_TARGET (by norm_num [AR_TARGET]) 3
  · norm_num [declinePred, AR_TARGET]
  · intro k hk
    interval_cases k <;> norm_num [declinePred, AR_TARGET]

theorem normal_path_accept_decline_witness :
    (consider_offer offerGood journeyUnset arStateHealthy Mode.SHADOW).1.action =
      Action.ACCEPT ∧
    (consider_offer offerGood journeyUnset arStateHealthy Mode.SHADOW).1.reason =
      "All checks passed" :=
  (normal_path_accept_decline offerGood journeyUnset arStateHealthy Mode.SHADOW
    (by
      intro hand
      have h3 := arStateHealthy_declines_left
      have hbreak : arStateHealthy.declines_left_before_target ≤ 0 := hand.1
      omega)).1
    ⟨by norm_num [floorsOk, payPerHr, payPerMile, offerGood, MIN_PER_MI],
     True.intro⟩

/-! ### Acceptance-rate tracker claims -/

/-- C4: `declines_left_before_target` is non-negative, and with the accepted
counter held fixed it never increases when the declined counter increases. -/
theorem declines_left_nonneg_antitone (s : ARState) (d2 : ℕ)
    (hd : s.declined ≤ d2) :
    0 ≤ s.declines_left_before_target ∧
    ARState.declines_left_before_target { s with declined := d2 } ≤
      s.declines_left_before_target := by
  refine ⟨Nat.zero_le _, ?_⟩
  show declinesLeft s.accepted d2 s.target ≤
    declinesLeft s.accepted s.declined s.target
  by_cases ht : 0 < s.target
  · by_contra hlt
    push_neg at hlt
    exact declinesLeft_min s.accepted d2 s.target ht _ hlt
      (declinePred_mono_declined s.accepted s.declined d2 s.target _ hd
        (declinesLeft_pred s.accepted s.declined s.target ht))
  · rw [declinesLeft_eq_zero_of_nonpos s.accepted d2 s.target (not_lt.mp ht)]
    exact Nat.zero_le _

theorem declines_left_nonneg_antitone_witness :
    0 ≤ ARState.init.declines_left_before_target ∧
    ARState.declines_left_before_target { ARState.init with declined := 5 } ≤
      ARState.init.declines_left_before_target :=
  declines_left_nonneg_antitone ARState.init 5 (Nat.zero_le 5)

/-- C5: for a target strictly between 0 and 1 the
`declines_left_before_target` loop terminates: its exit test is satisfiable,
it holds at the returned value, and the returned value is the unique least
such index (so the function is total and deterministic there). -/
theorem declines_left_terminates (s : ARState) (h1 : 0 < s.target)
    (_h2 : s.target < 1) :
    (∃ L, declinePred s.accepted s.declined s.target L) ∧
    declinePred s.accepted s.declined s.target
      s.declines_left_before_target ∧
    ∀ k, k < s.declines_left_before_target →
      ¬ declinePred s.accepted s.declined s.target k :=
  ⟨declinePred_exists _ _ _ h1, declinesLeft_pred _ _ _ h1,
    declinesLeft_min _ _ _ h1⟩

theorem declines_left_terminates_witness :
    (∃ L, declinePred ARState.init.accepted ARState.init.declined
      ARState.init.target L) ∧
    declinePred ARState.init.accepted ARState.init.declined
      ARState.init.target ARState.init.declines_left_before_target ∧
    ∀ k, k < ARState.init.declines_left_before_target →
      ¬ declinePred ARState.init.accepted ARState.init.declined
        ARState.init.target k :=
  declines_left_terminates ARState.init
    (by norm_num [ARState.init, AR_TARGET])
    (by norm_num [ARState.init, AR_TARGET])

/-- C6: the pill is GREEN exactly when the 10-offer projection at assumed
rate 0.7 reaches the warn ratio and at least 3 declines of headroom remain;
otherwise YELLOW exactly when the projection reaches the target or at least
1 decline remains; otherwise RED.  At the boundary (projection equal to the
warn ratio, headroom exactly 3) the pill is GREEN. -/
theorem pill_characterization (s : ARState) (_ht : 0 < s.target) :
    (s.pill = Pill.GREEN ↔
      (s.projected_after_n_offers 10 (7 / 10) ≥ s.warn_pct ∧
        s.declines_left_before_target ≥ 3)) ∧
    (s.pill = Pill.YELLOW ↔
      (¬ (s.projected_after_n_offers 10 (7 / 10) ≥ s.warn_pct ∧
          s.declines_left_before_target ≥ 3) ∧
        (s.projected_after_n_offers 10 (7 / 10) ≥ s.target ∨
          s.declines_left_before_target ≥ 1))) ∧
    (s.pill = Pill.RED ↔
      (¬ (s.projected_after_n_offers 10 (7 / 10) ≥ s.warn_pct ∧
          s.declines_left_before_target ≥ 3) ∧
        ¬ (s.projected_after_n_offers 10 (7 / 10) ≥ s.target ∨
          s.declines_left_before_target ≥ 1))) ∧
    (s.projected_after_n_offers 10 (7 / 10) = s.warn_pct →
      s.declines_left_before_target = 3 → s.pill = Pill.GREEN) := by
  simp only [ARState.pill]
  split_ifs with hg hy
  · exact ⟨iff_of_true rfl hg, iff_of_false (by simp) (fun h => h.1 hg),
      iff_of_false (by simp) (fun h => h.1 hg), fun _ _ => rfl⟩
  · exact ⟨iff_of_false (by simp) hg, iff_of_true rfl ⟨hg, hy⟩,
      iff_of_false (by simp) (fun h => h.2 hy),
      fun hp hl => absurd ⟨hp.ge, hl.ge⟩ hg⟩
  · exact ⟨iff_of_false (by simp) hg, iff_of_false (by simp) (fun h => hy h.2),
      iff_of_true rfl ⟨hg, hy⟩, fun hp hl => absurd ⟨hp.ge, hl.ge⟩ hg⟩

/-- Boundary tracker: projection is exactly the warn ratio and exactly three
declines of headroom remain. -/
def arStateBoundary : ARState :=
  { accepted := 30, declined := 10, target := 69 / 100,
    warn_pct := 37 / 50, warn_left := 2 }

theorem arStateBoundary_declines_left :
    arStateBoundary.declines_left_before_target = 3 := by
  apply declinesLeft_eq_of 30 10 (69 / 100) (by norm_num) 3
  · norm_num [declinePred]
  · intro k hk
    interval_cases k <;> norm_num [declinePred]

theorem arStateBoundary_projection :
    arStateBoundary.projected_after_n_offers 10 (7 / 10) = 37 / 50 := by
  norm_num [ARState.projected_after_n_offers, ARState.total, arStateBoundary,
    pyInt]

theorem pill_characterization_witness : arStateBoundary.pill = Pill.GREEN :=
  (pill_characterization arStateBoundary (by norm_num [arStateBoundary])).2.2.2
    arStateBoundary_projection arStateBoundary_declines_left

/-! ### Geometry claims -/

/-- C7: when either corridor endpoint is unset, `advances_corridor` passes
regardless of the candidate drop, cone angle and lateral offset. -/
theorem advances_corridor_unset_journey (ld wp : Option (ℝ × ℝ))
    (cand : ℝ × ℝ) (cone lo : ℝ) (h : ld = none ∨ wp = none) :
    advances_corridor ld wp cand cone lo := by
  rcases h with h | h
  · subst h
    cases wp <;> trivial
  · subst h
    cases ld <;> trivial

theorem advances_corridor_unset_journey_witness :
    advances_corridor none (some ((0 : ℝ), (0 : ℝ))) ((0 : ℝ), (0 : ℝ))
      CONE_DEG LATERAL_OFFSET_MI :=
  advances_corridor_unset_journey none (some ((0 : ℝ), (0 : ℝ)))
    ((0 : ℝ), (0 : ℝ)) CONE_DEG LATERAL_OFFSET_MI (Or.inl rfl)

/-- C8: the haversine distance is symmetric, and the distance from a point
to itself is zero. -/
theorem haversine_symm_and_self_zero (a b : ℝ × ℝ) :
    haversine_mi a b = haversine_mi b a ∧ haversine_mi a a = 0 := by
  constructor
  · simp only [haversine_mi, deg2rad]
    rw [show (b.1 * Real.pi / 180 - a.1 * Real.pi / 180) / 2
          = -((a.1 * Real.pi / 180 - b.1 * Real.pi / 180) / 2) from by ring,
        show (b.2 * Real.pi / 180 - a.2 * Real.pi / 180) / 2
          = -((a.2 * Real.pi / 180 - b.2 * Real.pi / 180) / 2) from by ring]
    simp only [Real.sin_neg, neg_sq]
    ring_nf
  · simp [haversine_mi, deg2rad, Real.sqrt_zero, Real.arcsin_zero]

/-! ### Decision-engine safety and fresh-state claims -/

/-- C9: both rate computations of `consider_offer` divide by a divisor
floored at the same epsilon 0.01, so the divisors are never smaller than
0.01 (in particular never zero, also for zero or negative `etaMin`/`miles`)
and the computed rates satisfy the exact division equations. -/
theorem pay_rate_divisors_floored (o : Offer) :
    (1 : ℚ) / 100 ≤ max o.etaMin (1 / 100) ∧
    (1 : ℚ) / 100 ≤ max o.miles (1 / 100) ∧
    payPerHr o * max o.etaMin (1 / 100) = o.pay * 60 ∧
    payPerMile o * max o.miles (1 / 100) = o.pay := by
  have h1 : (0 : ℚ) < max o.etaMin (1 / 100) :=
    lt_of_lt_of_le (by norm_num) (le_max_right _ _)
  have h2 : (0 : ℚ) < max o.miles (1 / 100) :=
    lt_of_lt_of_le (by norm_num) (le_max_right _ _)
  refine ⟨le_max_right _ _, le_max_right _ _, ?_, ?_⟩
  · unfold payPerHr
    field_simp
  · unfold payPerMile
    field_simp

/-- C10: with no accepted offers and a positive target the decline budget is
already exhausted (regardless of the declined count); the fresh state still
reports a current ratio of 1.0, and the first offer failing a floors or
corridor check is forced to ACCEPT_REROUTE. -/
theorem fresh_state_forces_reroute (s : ARState) (o : Offer) (j : Journey)
    (mode : Mode) (ha : s.accepted = 0) (ht : 0 < s.target)
    (hfail : ¬ floorsOk o ∨ ¬ corridorOk j o) :
    s.declines_left_before_target = 0 ∧
    (s.total = 0 → s.current = 1) ∧
    (consider_offer o j s mode).1.action = Action.ACCEPT_REROUTE := by
  have h0 : s.declines_left_before_target = 0 := by
    show declinesLeft s.accepted s.declined s.target = 0
    apply declinesLeft_eq_of s.accepted s.declined s.target ht 0
    · unfold declinePred
      rw [ha]
      simpa using ht
    · intro k hk
      exact absurd hk (Nat.not_lt_zero k)
  refine ⟨h0, fun htot => ?_, ?_⟩
  · simp [ARState.current, htot]
  · exact (consider_offer_override o j s mode (le_of_eq h0) hfail).1

theorem fresh_state_forces_reroute_witness :
    ARState.init.declines_left_before_target = 0 ∧
    (ARState.init.total = 0 → ARState.init.current = 1) ∧
    (consider_offer offerNoPay journeyUnset ARState.init Mode.SHADOW).1.action =
      Action.ACCEPT_REROUTE :=
  fresh_state_forces_reroute ARState.init offerNoPay journeyUnset Mode.SHADOW
    rfl (by norm_num [ARState.init, AR_TARGET])
    (Or.inl (by norm_num [floorsOk, payPerHr, payPerMile, offerNoPay, MIN_PER_MI]))

end Gigly
